import Mathlib

/-!
# BoostTls: TLS client and server session establishment

A shallow embedding of `src/server/server.cc` and `src/client/client.cc`.

The two translation units are almost entirely orchestration of library calls
(Boost.Asio, OpenSSL).  Each member function is embedded as a function on an
explicit object state.  What a library call reports back to the program (the
`boost::system::error_code` it fills in, or the exception it throws) is not
determined by the repository, so it is supplied by an environment record and
the theorems quantify over every environment.  Output written to `std::cout`
is kept as a list of lines, and the library calls performed are kept as a
list, in program order.
-/

namespace BoostTls

/-! ## Library vocabulary -/

/-- The class `boost::system::error_code`: an integer value and its message.  Value `0`
means success. -/
structure ErrorCode where
  value : Int
  message : String
  deriving DecidableEq, Repr

namespace ErrorCode

/-- A default-constructed `boost::system::error_code` (as in
`boost::system::error_code error;`). -/
def success : ErrorCode := ⟨0, "Success"⟩

/-- The conversion `explicit operator bool`, used by `if (error)`: true when the code
holds a failure. -/
def failed (e : ErrorCode) : Bool := e.value != 0

end ErrorCode

/-- The C++ exceptions that occur in the two translation units.
`boost::system::system_error` is what the overloads of Boost.Asio functions
without an `error_code` parameter throw; it derives from `std::runtime_error`. -/
inductive Exn where
  | runtime_error (what : String)
  | system_error (code : ErrorCode)
  deriving DecidableEq, Repr

/-- The member `what()` of an exception caught as `const std::runtime_error&`. -/
def Exn.what : Exn → String
  | .runtime_error w => w
  | .system_error c => c.message

/-- Equality of `Except` values is decidable when it is for both alternatives. -/
instance instDecidableEqExcept {ε α : Type} [DecidableEq ε] [DecidableEq α] :
    DecidableEq (Except ε α) := fun a b =>
  match a, b with
  | .ok x, .ok y => if h : x = y then isTrue (by rw [h]) else isFalse (by intro e; cases e; exact h rfl)
  | .error x, .error y =>
    if h : x = y then isTrue (by rw [h]) else isFalse (by intro e; cases e; exact h rfl)
  | .ok _, .error _ => isFalse (by intro e; cases e)
  | .error _, .ok _ => isFalse (by intro e; cases e)

/-- The constant `boost::asio::ssl::verify_none` (`SSL_VERIFY_NONE`). -/
def verify_none : Nat := 0
/-- The constant `boost::asio::ssl::verify_peer` (`SSL_VERIFY_PEER`). -/
def verify_peer : Nat := 1
/-- The constant `boost::asio::ssl::verify_fail_if_no_peer_cert`
(`SSL_VERIFY_FAIL_IF_NO_PEER_CERT`). -/
def verify_fail_if_no_peer_cert : Nat := 2

/-- An `X509` certificate as far as the callbacks read it.  The subject name is the
list of its entries, each in its one-line rendering such as `/CN=client`. -/
structure X509 where
  subject : List String
  issuer : String
  serial : Nat
  deriving DecidableEq, Repr

/-- The class `boost::asio::ssl::verify_context`: the store context of the running chain
validation.  The callbacks read the current certificate out of it. -/
structure VerifyContext where
  currentCert : X509
  errorDepth : Nat
  storeError : Int
  deriving DecidableEq, Repr

/-- The loop of `X509_NAME_oneline` over the entries of the name: an entry is appended
while the text still fits in `room` bytes, and the loop stops before the first
entry that does not fit. -/
def X509_NAME_oneline.entries : List String → String → Nat → String
  | [], text, _ => text
  | entry :: rest, text, room =>
    if text.length + entry.length > room then text
    else X509_NAME_oneline.entries rest (text ++ entry) room

/-- The call `X509_NAME_oneline(name, buf, size)` with a buffer of the caller: the
entries of the name one after the other, as many whole entries as fit in
`size` bytes including the terminating zero. -/
def X509_NAME_oneline (name : List String) (size : Nat) : String :=
  X509_NAME_oneline.entries name "" (size - 1)

/-! ## The certificate verifier callbacks -/

/-- The member function `server::certVerifyCB` (server.cc lines 90-108).  Returns the
callback's result and the lines it writes to `std::cout`. -/
def server.certVerifyCB (preverified : Bool) (ctx : VerifyContext) : Bool × List String :=
  let cert := ctx.currentCert
  let subjectName := X509_NAME_oneline cert.subject 256
  let out := ["[Server] Verifying " ++ subjectName]
  let out :=
    if preverified then out ++ ["[Server] Verified!"]
    else out ++ ["[Server] Verification failed!"]
  (preverified, out)

/-- The member function `client::verifyCertificate` (client.cc lines 70-77). -/
def client.verifyCertificate (preverified : Bool) (ctx : VerifyContext) : Bool × List String :=
  let cert := ctx.currentCert
  let subjectName := X509_NAME_oneline cert.subject 256
  let out := ["Verifying " ++ subjectName]
  (preverified, out)

/-- The function objects registered with `set_verify_callback`:
`std::bind(&server::certVerifyCB, this, _1, _2)` and
`std::bind(&client::verifyCertificate, this, _1, _2)`. -/
inductive VerifyCallback where
  | serverCertVerifyCB
  | clientVerifyCertificate
  deriving DecidableEq, Repr

/-- Invoking a registered callback. -/
def VerifyCallback.call : VerifyCallback → Bool → VerifyContext → Bool × List String
  | .serverCertVerifyCB => server.certVerifyCB
  | .clientVerifyCertificate => client.verifyCertificate

/-! ## The TLS context -/

/-- The constructor argument of `boost::asio::ssl::context`. -/
inductive Method where
  | tlsv12_client
  | tlsv12_server
  deriving DecidableEq, Repr

/-- The password callback registered on the server context:
`std::bind(&server::getPassword, this)`. -/
inductive PasswordCallback where
  | serverGetPassword
  deriving DecidableEq, Repr

/-- The member function `server::getPassword` (server.cc lines 86-88). -/
def server.getPassword : String := "serverKeyPass"

/-- The configuration held by a `boost::asio::ssl::context` (and, for the verify
settings, by an `ssl::stream`), as far as the two programs set it. -/
structure SslContext where
  method : Method
  default_workarounds : Bool
  passwordCallback : Option PasswordCallback
  certificateFile : Option String
  privateKeyFile : Option String
  verifyFile : Option String
  verifyMode : Nat
  verifyCallback : Option VerifyCallback
  deriving DecidableEq, Repr

/-- A freshly constructed `boost::asio::ssl::context(method)`. -/
def SslContext.fresh (m : Method) : SslContext :=
  { method := m, default_workarounds := false, passwordCallback := none,
    certificateFile := none, privateKeyFile := none, verifyFile := none,
    verifyMode := verify_none, verifyCallback := none }

/-- The configuration calls `server::initializeTls` makes on `_sslContext`, in source
order. -/
inductive ContextCall where
  | set_options
  | set_password_callback
  | use_certificate_file
  | use_private_key_file
  | load_verify_file
  | set_verify_mode
  | set_verify_callback
  deriving DecidableEq, Repr

/-- Position of a configuration call in the source order of `server::initializeTls`. -/
def ContextCall.index : ContextCall → Nat
  | .set_options => 0
  | .set_password_callback => 1
  | .use_certificate_file => 2
  | .use_private_key_file => 3
  | .load_verify_file => 4
  | .set_verify_mode => 5
  | .set_verify_callback => 6

/-- The seven configuration calls in source order. -/
def ContextCall.all : List ContextCall :=
  [.set_options, .set_password_callback, .use_certificate_file, .use_private_key_file,
   .load_verify_file, .set_verify_mode, .set_verify_callback]

/-! ## The server -/

/-- A `boost::asio::ip::tcp::socket` handed to the accept handler.  The field
`remote_endpoint` is what `socket.remote_endpoint()` yields on it: the peer's
endpoint, or the failure code that the overload without an `error_code`
parameter (the one server.cc line 77 calls) throws as
`boost::system::system_error`. -/
structure Socket where
  handle : Nat
  remote_endpoint : Except ErrorCode String
  deriving DecidableEq, Repr

/-- An object of the class `connection` (declared in `connection.h`, which is not part
of the translation units at hand): the constructor arguments it was built
from, `connection(std::move(socket), _sslContext)`. -/
structure connection where
  socket : Socket
  sslContext : SslContext
  deriving DecidableEq, Repr

/-- The state of a `server` object together with what it has written to `std::cout`.
`calls` lists the configuration calls made on `_sslContext`, `pendingAccepts`
counts the `async_accept` operations outstanding on `_acceptor`, `started`
lists the connections on which `start()` was invoked. -/
structure server where
  _port : Nat
  _sslContext : SslContext
  cout : List String
  calls : List ContextCall
  pendingAccepts : Nat
  started : List connection
  deriving DecidableEq, Repr

/-- What each configuration call reports through its `error` out-parameter, were it
to be executed. -/
abbrev ServerTlsEnv := ContextCall → ErrorCode

/-- One configuration call on `_sslContext` with an `error_code` out-parameter: the
call is recorded, and it takes effect on the context when it reports no
error. -/
def server.configure (s : server) (call : ContextCall) (error : ErrorCode)
    (effect : SslContext → SslContext) : server :=
  { s with
    calls := s.calls ++ [call]
    _sslContext := if error.failed then s._sslContext else effect s._sslContext }

/-- The function-try-block body of `server::initializeTls` (server.cc lines 30-66). -/
def server.initializeTls.body (env : ServerTlsEnv) (s : server) : Except Exn Unit × server :=
  let error := env .set_options
  let s := s.configure .set_options error (fun c => { c with default_workarounds := true })
  if error.failed then
    (.error (.runtime_error ("Could not set SSL context options (" ++ error.message ++ ")")), s)
  else
  let error := env .set_password_callback
  let s := s.configure .set_password_callback error
    (fun c => { c with passwordCallback := some .serverGetPassword })
  if error.failed then
    (.error (.runtime_error ("Could not set password callback (" ++ error.message ++ ")")), s)
  else
  let error := env .use_certificate_file
  let s := s.configure .use_certificate_file error
    (fun c => { c with certificateFile := some "../certs/server.crt" })
  if error.failed then
    (.error (.runtime_error ("Could not set certificate file (" ++ error.message ++ ")")), s)
  else
  let error := env .use_private_key_file
  let s := s.configure .use_private_key_file error
    (fun c => { c with privateKeyFile := some "../certs/server.key" })
  if error.failed then
    (.error (.runtime_error ("Could not set private key file (" ++ error.message ++ ")")), s)
  else
  let error := env .load_verify_file
  let s := s.configure .load_verify_file error
    (fun c => { c with verifyFile := some "../certs/ca.pem" })
  if error.failed then
    (.error (.runtime_error ("Could not load CA certificate file (" ++ error.message ++ ")")), s)
  else
  let error := env .set_verify_mode
  let s := s.configure .set_verify_mode error
    (fun c => { c with verifyMode := verify_peer ||| verify_fail_if_no_peer_cert })
  if error.failed then
    (.error (.runtime_error ("Could not set verify mode (" ++ error.message ++ ")")), s)
  else
  let error := env .set_verify_callback
  let s := s.configure .set_verify_callback error
    (fun c => { c with verifyCallback := some .serverCertVerifyCB })
  if error.failed then
    (.error (.runtime_error
      ("Could not set verify callback function (" ++ error.message ++ ")")), s)
  else
    (.ok (), s)

/-- The member function `server::initializeTls` (server.cc lines 30-70): the body, and
the handler `catch (const std::runtime_error& ex)` of the function-try-block,
which logs and throws `std::runtime_error("TLS initialization error")`.
Both exception classes of `Exn` are `std::runtime_error`s, so the handler
catches every exception of the body. -/
def server.initializeTls (env : ServerTlsEnv) (s : server) : Except Exn Unit × server :=
  match server.initializeTls.body env s with
  | (.ok (), s) => (.ok (), s)
  | (.error ex, s) =>
    (.error (.runtime_error "TLS initialization error"),
     { s with cout := s.cout ++ ["[Server] TLS initialization error: " ++ ex.what] })

/-- The constructor `server::server(port)` (server.cc lines 8-13), named `construct`
because the structure already carries the class name.  `acceptor` is what
constructing `_acceptor` on the wildcard endpoint reports (that constructor
opens, binds and listens, and throws `boost::system::system_error` on
failure).  The result is the constructed object, or the exception that leaves
the constructor, in which case no `server` object exists.  The parameter is a
`std::uint16_t`, so the port arrives reduced modulo 65536. -/
def server.construct (port : Nat) (acceptor : ErrorCode) (env : ServerTlsEnv) : Except Exn server :=
  if acceptor.failed then .error (.system_error acceptor)
  else
    let s : server :=
      { _port := port % 65536, _sslContext := SslContext.fresh .tlsv12_server, cout := [],
        calls := [], pendingAccepts := 0, started := [] }
    match server.initializeTls env s with
    | (.ok (), s) => .ok s
    | (.error ex, _) => .error ex

/-- The member function `server::accept` up to the point where it returns (server.cc
lines 72-84): it logs and hands one `async_accept` with the completion handler
to `_acceptor`. -/
def server.accept (s : server) : server :=
  { s with
    cout := s.cout ++ ["[Server] Waiting for connections..."]
    pendingAccepts := s.pendingAccepts + 1 }

/-- The completion handler passed to `async_accept` (server.cc lines 75-82), run when
one pending accept completes with `error` and `socket`.  `startResult` is what
`connection::start()` does synchronously on the new connection (the class is
defined outside the translation units at hand): it returns, or it throws.
The completed operation is no longer pending when its handler runs.  Text sent
to `std::cout` ahead of a throwing operand is not a complete line and is not
recorded. -/
def server.acceptHandler (error : ErrorCode) (socket : Socket) (startResult : Except Exn Unit)
    (s : server) : Except Exn Unit × server :=
  let s := { s with pendingAccepts := s.pendingAccepts - 1 }
  if !error.failed then
    match socket.remote_endpoint with
    | .error ec => (.error (.system_error ec), s)
    | .ok endpoint =>
      let s := { s with cout := s.cout ++ ["[Server] Client connected (" ++ endpoint ++ ")"] }
      let conn : connection := { socket := socket, sslContext := s._sslContext }
      let s := { s with started := s.started ++ [conn] }
      match startResult with
      | .error ex => (.error ex, s)
      | .ok () => (.ok (), server.accept s)
  else
    (.ok (), server.accept s)

/-- The member function `server::start` (server.cc lines 15-19), up to launching the
thread that runs `_ioContext`. -/
def server.start (s : server) : server :=
  server.accept { s with cout := s.cout ++ ["[Server] Starting server"] }

/-! ## The client -/

/-- One invocation of the verifier: a certificate of the peer's chain (inside the
verify context) and the pre-verification verdict for it. -/
structure CertificateEvent where
  preverified : Bool
  ctx : VerifyContext
  deriving DecidableEq, Repr

/-- Lifecycle of a session (the state of the encrypted stream object). -/
inductive SessionState where
  | constructed
  | handshaking
  | established
  | failed
  deriving DecidableEq, Repr

/-- The library calls the client makes, in the order it makes them.  `write` carries
the bytes of `boost::asio::buffer(message, messageLength)`. -/
inductive ClientCall where
  | set_options
  | load_verify_file
  | set_verify_mode
  | set_verify_callback
  | connect
  | handshake
  | write (bytes : List Nat)
  deriving DecidableEq, Repr

/-- What the library calls of the client report, were they to be executed:
the `error_code` each call with an out-parameter fills in, and for
`from_string` and `write` the failure that the throwing overload raises.
`verifyEvents` lists the invocations of the registered verify callback that
the library makes while the handshake runs, in order.  `write bytes` is what
the stream reports for a transfer of the non-empty buffer `bytes`. -/
structure ClientEnv where
  from_string : ErrorCode
  set_options : ErrorCode
  load_verify_file : ErrorCode
  set_verify_mode : ErrorCode
  set_verify_callback : ErrorCode
  connect : ErrorCode
  handshake : ErrorCode
  verifyEvents : List CertificateEvent
  write : List Nat → ErrorCode

/-- The state of a `client` object together with what it has written to `std::cout`.
`verifyMode` and `verifyCallback` are the settings of `_sslSocket`, `state` is
the state of the stream `_sslSocket`, `calls` lists the library calls made,
`wire` the bytes handed to the stream by completed writes. -/
structure client where
  _remoteIp : String
  _remotePort : Nat
  _sslContext : SslContext
  verifyMode : Nat
  verifyCallback : Option VerifyCallback
  state : SessionState
  cout : List String
  calls : List ClientCall
  wire : List Nat
  deriving DecidableEq, Repr

/-- The member function `client::initializeTls` (client.cc lines 41-68).  It returns
`void` on every path. -/
def client.initializeTls (env : ClientEnv) (c : client) : client :=
  let error := env.set_options
  let c := { c with
    calls := c.calls ++ [ClientCall.set_options]
    _sslContext :=
      if error.failed then c._sslContext else { c._sslContext with default_workarounds := true } }
  if error.failed then
    { c with cout := c.cout ++ ["Could not set ssl context options (" ++ error.message ++ ")"] }
  else
  let error := env.load_verify_file
  let c := { c with
    calls := c.calls ++ [ClientCall.load_verify_file]
    _sslContext :=
      if error.failed then c._sslContext
      else { c._sslContext with verifyFile := some "../certs/ca.pem" } }
  if error.failed then
    { c with cout := c.cout ++ ["Could not load CA cert file (" ++ error.message ++ ")"] }
  else
  let error := env.set_verify_mode
  let c := { c with
    calls := c.calls ++ [ClientCall.set_verify_mode]
    verifyMode := if error.failed then c.verifyMode else verify_peer }
  if error.failed then
    { c with cout := c.cout ++ ["Could not set verify mode (" ++ error.message ++ ")"] }
  else
  let error := env.set_verify_callback
  let c := { c with
    calls := c.calls ++ [ClientCall.set_verify_callback]
    verifyCallback :=
      if error.failed then c.verifyCallback else some .clientVerifyCertificate }
  if error.failed then
    { c with
      cout := c.cout ++ ["Could not set verify callback function (" ++ error.message ++ ")"] }
  else
    c

/-- What the registered verify callback writes to `std::cout` over the invocations the
library makes during a handshake; nothing when no callback is registered. -/
def client.verifyOutput (cb : Option VerifyCallback) (events : List CertificateEvent) :
    List String :=
  match cb with
  | none => []
  | some f => (events.map (fun ev => (f.call ev.preverified ev.ctx).2)).flatten

/-- The member function `client::connect` (client.cc lines 15-30).  It returns `void`
on every path.  The stream is failed once a call on it reported an error and
established once the handshake reported none.  While the handshake runs, the
registered verify callback writes its lines. -/
def client.connect (env : ClientEnv) (c : client) : client :=
  let error := env.connect
  let c := { c with
    calls := c.calls ++ [ClientCall.connect]
    state := if error.failed then .failed else .handshaking }
  if error.failed then
    { c with cout := c.cout ++ ["Could not connect to remote endpoint (" ++ error.message ++ ")"] }
  else
  let error := env.handshake
  let c := { c with
    calls := c.calls ++ [ClientCall.handshake]
    cout := c.cout ++ client.verifyOutput c.verifyCallback env.verifyEvents
    state := if error.failed then .failed else .established }
  if error.failed then
    { c with cout := c.cout ++ ["Handshake failed with server (" ++ error.message ++ ")"] }
  else
    { c with cout := c.cout ++ ["Successfully connected to server"] }

/-- The library function `boost::asio::write(stream, buffer)` in the overload without
an `error_code` parameter, after its documented contract: it returns when all
of the buffer has been transferred, which for an empty buffer is at once and
without touching the stream, or when the stream reported an error, which it
throws as `boost::system::system_error`.  The result is the byte count. -/
def asio.write (report : List Nat → ErrorCode) (buffer : List Nat) : Except Exn Nat :=
  if buffer.isEmpty then .ok 0
  else
    let ec := report buffer
    if ec.failed then .error (.system_error ec) else .ok buffer.length

/-- The member function `client::send` (client.cc lines 32-39); `message` stands for the
`messageLength` bytes at `message`.  The local `error` is default-constructed
and is not an argument of the write. -/
def client.send (env : ClientEnv) (message : List Nat) (c : client) : Except Exn Unit × client :=
  let error := ErrorCode.success
  let c := { c with calls := c.calls ++ [ClientCall.write message] }
  match asio.write env.write message with
  | .error ex => (.error ex, c)
  | .ok _ =>
    let c := { c with wire := c.wire ++ message }
    if error.failed then
      (.ok (),
       { c with cout := c.cout ++ ["Could not write message to stream (" ++ error.message ++ ")"] })
    else
      (.ok (), c)

/-- The constructor `client::client(remoteIp, remotePort)` (client.cc lines 5-13), named
`construct` because the structure already carries the class name.
`boost::asio::ip::address::from_string` throws on an address it cannot parse;
otherwise the body runs `initializeTls()` and then `connect()`.  The port
parameter is a `std::uint16_t`, so it arrives reduced modulo 65536. -/
def client.construct (remoteIp : String) (remotePort : Nat) (env : ClientEnv) :
    Except Exn client :=
  if env.from_string.failed then .error (.system_error env.from_string)
  else
    let c : client :=
      { _remoteIp := remoteIp, _remotePort := remotePort % 65536,
        _sslContext := SslContext.fresh .tlsv12_client,
        verifyMode := verify_none, verifyCallback := none, state := .constructed,
        cout := [], calls := [], wire := [] }
    let c := client.initializeTls env c
    let c := client.connect env c
    .ok c

/-! ## The handshake's trust decision -/
/-- Modelled from the spec: the chain validation that runs inside the TLS handshake,
which is performed by the TLS library and is not part of the translation units
at hand.  After section 4.4: the verifier callback "is invoked once for every
certificate in the chain, ordered from the root-most certificate down to the
leaf", and "the handshake's overall trust decision is accept chain iff every
per-certificate callback accepted".  `chain` is in root-first order.  Returns
the decision and the lines the callbacks wrote. -/
def verifyChain (cb : VerifyCallback) : List CertificateEvent → Bool × List String
  | [] => (true, [])
  | ev :: rest =>
    let r := cb.call ev.preverified ev.ctx
    let t := verifyChain cb rest
    (r.1 && t.1, r.2 ++ t.2)

/-- Modelled from the spec: the outcome of a TLS handshake as far as peer verification
decides it, for the verification mode and callback in force and the chain the
peer presents (empty when it presents no certificate).  After sections 4.1
and 4.4: mode `none` verifies nothing; with `verifyPeerRequireCert` "and the
peer presents no certificate at all, the handshake must fail"; a presented
chain is trusted iff every callback invocation accepted, and "a single
rejecting callback invocation fails the entire handshake".  Without a
registered callback the pre-verification verdicts stand. -/
def handshakeTrusted (mode : Nat) (cb : Option VerifyCallback) (chain : List CertificateEvent) :
    Bool :=
  if mode &&& verify_peer = 0 then true
  else if chain.isEmpty then mode &&& verify_fail_if_no_peer_cert = 0
  else
    match cb with
    | some f => (verifyChain f chain).1
    | none => chain.all (fun ev => ev.preverified)

/-- Modelled from the spec: the error code a handshake reports, success exactly when
the peer was trusted (section 4.4, "A single rejecting callback invocation
fails the entire handshake with a VerificationError"). -/
def handshakeReport (trusted : Bool) : ErrorCode :=
  if trusted then ErrorCode.success else ⟨167772294, "certificate verify failed"⟩

/-- Modelled from the spec: the server-side session (class `connection`, whose
definition is not part of the translation units at hand) after its handshake
on the listener's context, section 4.4: "on handshake success, the session
transitions to established"; on a verification failure "the session
transitions to failed". -/
def connection.handshake (conn : connection) (chain : List CertificateEvent) : SessionState :=
  if handshakeTrusted conn.sslContext.verifyMode conn.sslContext.verifyCallback chain then
    .established
  else .failed

/-- A certificate event with the given verdict and subject. -/
def sampleEvent (preverified : Bool) (subject : String) : CertificateEvent :=
  { preverified := preverified,
    ctx := { currentCert := { subject := [subject], issuer := "/CN=Test Root CA", serial := 1 },
             errorDepth := 0, storeError := 0 } }

/-- A two-certificate chain, root first, whose second certificate fails
pre-verification. -/
def chainRejectedAtLeaf : List CertificateEvent :=
  [sampleEvent true "/CN=Test Root CA", sampleEvent false "/CN=client"]

/-- An environment in which every library call of the client succeeds. -/
def clientEnvOk : ClientEnv :=
  { from_string := ErrorCode.success, set_options := ErrorCode.success,
    load_verify_file := ErrorCode.success, set_verify_mode := ErrorCode.success,
    set_verify_callback := ErrorCode.success, connect := ErrorCode.success,
    handshake := ErrorCode.success, verifyEvents := [],
    write := fun _ => ErrorCode.success }

/-- A client object as the constructor sets it up before `initializeTls()`. -/
def clientFresh : client :=
  { _remoteIp := "127.0.0.1", _remotePort := 4433,
    _sslContext := SslContext.fresh .tlsv12_client,
    verifyMode := verify_none, verifyCallback := none, state := .constructed,
    cout := [], calls := [], wire := [] }

/-- A client object on whose stream verify mode and callback have been set. -/
def clientConfigured : client :=
  { clientFresh with verifyMode := verify_peer, verifyCallback := some .clientVerifyCertificate }

/-- An environment in which all calls succeed except that the handshake reports the
trust decision on `chainRejectedAtLeaf`. -/
def clientEnvRejectedChain : ClientEnv :=
  { clientEnvOk with
    handshake := handshakeReport
      (handshakeTrusted verify_peer (some .clientVerifyCertificate) chainRejectedAtLeaf)
    verifyEvents := chainRejectedAtLeaf }

/-- A connection on a context in require-certificate mode with the server's callback. -/
def connectionConfigured : connection :=
  { socket := { handle := 7, remote_endpoint := .ok "[::1]:50000" },
    sslContext := { SslContext.fresh .tlsv12_server with
      verifyMode := verify_peer ||| verify_fail_if_no_peer_cert,
      verifyCallback := some .serverCertVerifyCB } }

/-- A server object as the constructor sets it up before `initializeTls()`. -/
def serverFresh : server :=
  { _port := 4433, _sslContext := SslContext.fresh .tlsv12_server, cout := [],
    calls := [], pendingAccepts := 0, started := [] }

/-- An environment in which loading the CA bundle fails and everything else
succeeds. -/
def clientEnvNoCaFile : ClientEnv :=
  { clientEnvOk with load_verify_file := ⟨2, "No such file or directory"⟩ }

/-- The calls made by a run over `calls` that stops after the first one reporting an
error. -/
def executedUntilFailure (env : ServerTlsEnv) : List ContextCall → List ContextCall
  | [] => []
  | call :: rest => if (env call).failed then [call] else call :: executedUntilFailure env rest

/-- An environment in which every configuration call of the server succeeds. -/
def serverEnvOk : ServerTlsEnv := fun _ => ErrorCode.success

/-- A configured server after `start()`: one accept is pending. -/
def serverListening : server :=
  server.start (server.initializeTls serverEnvOk serverFresh).2

/-- An accepted socket whose peer has already reset the connection, so that querying
the remote endpoint fails with `ENOTCONN`. -/
def socketPeerGone : Socket :=
  { handle := 9, remote_endpoint := .error ⟨107, "Transport endpoint is not connected"⟩ }

/-! ## Supporting lemmas -/

theorem verifyChain_true_iff (cb : VerifyCallback) (chain : List CertificateEvent) :
    (verifyChain cb chain).1 = true ↔
      ∀ ev ∈ chain, (cb.call ev.preverified ev.ctx).1 = true := by
  induction chain with
  | nil => simp [verifyChain]
  | cons ev rest ih => simp [verifyChain, ih]

theorem callback_result (cb : VerifyCallback) (preverified : Bool) (ctx : VerifyContext) :
    (cb.call preverified ctx).1 = preverified := by
  cases cb <;> rfl

theorem verifyChain_false_of_rejected (cb : VerifyCallback) (chain : List CertificateEvent)
    (h : ∃ ev ∈ chain, (cb.call ev.preverified ev.ctx).1 = false) :
    (verifyChain cb chain).1 = false := by
  obtain ⟨ev, hmem, hrej⟩ := h
  cases hv : (verifyChain cb chain).1 with
  | false => rfl
  | true =>
    have := (verifyChain_true_iff cb chain).mp hv ev hmem
    rw [hrej] at this
    exact absurd this (by decide)

/-! ## The certificate verifier (C1, C2) -/

/-- C1: for every pre-verification verdict and every verify context, both verifier
callbacks return exactly the verdict they were given; the result does not
depend on the certificate or on anything else in the verify context. -/
theorem verifier_returns_preverified (preverified : Bool) (ctx other : VerifyContext) :
    (server.certVerifyCB preverified ctx).1 = preverified ∧
    (client.verifyCertificate preverified ctx).1 = preverified ∧
    (server.certVerifyCB preverified ctx).1 = (server.certVerifyCB preverified other).1 ∧
    (client.verifyCertificate preverified ctx).1 =
      (client.verifyCertificate preverified other).1 :=
  ⟨rfl, rfl, rfl, rfl⟩

/-- C2: a chain, given root first as the list of per-certificate events, is trusted
exactly when every invocation of the verifier callback on it accepts (for the
server's and for the client's callback), which is exactly when every
pre-verification verdict is an accept.  When the callback rejects some
certificate of the chain, at whatever position, the decision is reject, a
server session on a context in require-certificate mode with the server's
callback ends failed, and a client whose handshake reports that decision ends
failed and not established. -/
theorem chain_trusted_iff_all_callbacks_accept (chain : List CertificateEvent) :
    ((verifyChain .serverCertVerifyCB chain).1 = true ↔
      ∀ ev ∈ chain, (server.certVerifyCB ev.preverified ev.ctx).1 = true) ∧
    ((verifyChain .clientVerifyCertificate chain).1 = true ↔
      ∀ ev ∈ chain, (client.verifyCertificate ev.preverified ev.ctx).1 = true) ∧
    (∀ cb : VerifyCallback,
      (verifyChain cb chain).1 = true ↔ ∀ ev ∈ chain, ev.preverified = true) ∧
    ((∃ ev ∈ chain, (server.certVerifyCB ev.preverified ev.ctx).1 = false) →
      (verifyChain .serverCertVerifyCB chain).1 = false ∧
      ∀ conn : connection,
        conn.sslContext.verifyMode = verify_peer ||| verify_fail_if_no_peer_cert →
        conn.sslContext.verifyCallback = some .serverCertVerifyCB →
        conn.handshake chain = .failed) ∧
    ((∃ ev ∈ chain, (client.verifyCertificate ev.preverified ev.ctx).1 = false) →
      (verifyChain .clientVerifyCertificate chain).1 = false ∧
      ∀ (env : ClientEnv) (c : client),
        c.verifyMode = verify_peer →
        c.verifyCallback = some .clientVerifyCertificate →
        env.handshake = handshakeReport (handshakeTrusted c.verifyMode c.verifyCallback chain) →
        (client.connect env c).state = .failed ∧
        (client.connect env c).state ≠ .established) := by
  refine ⟨verifyChain_true_iff _ chain, verifyChain_true_iff _ chain, ?_, ?_, ?_⟩
  · intro cb
    rw [verifyChain_true_iff]
    simp only [callback_result]
  · intro h
    have hrej := verifyChain_false_of_rejected .serverCertVerifyCB chain h
    refine ⟨hrej, ?_⟩
    intro conn hmode hcb
    have hne : chain.isEmpty = false := by
      obtain ⟨ev, hmem, _⟩ := h
      cases chain with
      | nil => simp at hmem
      | cons _ _ => rfl
    simp [connection.handshake, handshakeTrusted, hmode, hcb, hne, hrej, verify_peer,
      verify_fail_if_no_peer_cert]
  · intro h
    have hrej := verifyChain_false_of_rejected .clientVerifyCertificate chain h
    refine ⟨hrej, ?_⟩
    intro env c hmode hcb hhs
    have hne : chain.isEmpty = false := by
      obtain ⟨ev, hmem, _⟩ := h
      cases chain with
      | nil => simp at hmem
      | cons _ _ => rfl
    have hfail : env.handshake.failed = true := by
      rw [hhs]
      simp [handshakeTrusted, hmode, hcb, hne, hrej, verify_peer, handshakeReport,
        ErrorCode.failed]
    cases hc : env.connect.failed <;> simp [client.connect, hc, hfail]

/-- C2, evaluated on a two-certificate chain whose second certificate is rejected: the
chain is not trusted, the server session fails and the client ends failed. -/
theorem chain_trusted_iff_all_callbacks_accept_witness :
    (verifyChain .serverCertVerifyCB chainRejectedAtLeaf).1 = false ∧
    (verifyChain .clientVerifyCertificate chainRejectedAtLeaf).1 = false ∧
    connection.handshake connectionConfigured chainRejectedAtLeaf = .failed ∧
    (client.connect clientEnvRejectedChain clientConfigured).state = .failed := by
  have h := chain_trusted_iff_all_callbacks_accept chainRejectedAtLeaf
  obtain ⟨_, _, _, hs, hc⟩ := h
  have hs2 := hs ⟨sampleEvent false "/CN=client", by simp [chainRejectedAtLeaf], rfl⟩
  have hc2 := hc ⟨sampleEvent false "/CN=client", by simp [chainRejectedAtLeaf], rfl⟩
  exact ⟨hs2.1, hc2.1, hs2.2 connectionConfigured rfl rfl,
    (hc2.2 clientEnvRejectedChain clientConfigured rfl rfl rfl).1⟩

/-! ## The client session (C3, C4, C5, C10) -/

theorem success_not_failed : ErrorCode.success.failed = false := rfl

theorem connect_diagnostic_ne_success (m : String) :
    "Could not connect to remote endpoint (" ++ m ++ ")" ≠ "Successfully connected to server" := by
  intro h
  have h2 := congrArg (fun t => t.data.head?) h
  simp [String.data_append] at h2

/-- C3: `client::connect` makes the transport connect and then, exactly when that
reported no error, one handshake.  When the transport connect reports an
error, the only call made is the connect, the stream is failed, and the only
output is the diagnostic: the success line is not written. -/
theorem connect_handshake_iff_transport_ok (env : ClientEnv) (c : client) :
    (client.connect env c).calls =
      c.calls ++ (if env.connect.failed then [ClientCall.connect]
                  else [ClientCall.connect, ClientCall.handshake]) ∧
    (ClientCall.handshake ∈ (client.connect env c).calls.drop c.calls.length ↔
      env.connect.failed = false) ∧
    (env.connect.failed = true →
      (client.connect env c).state = .failed ∧
      (client.connect env c).cout =
        c.cout ++ ["Could not connect to remote endpoint (" ++ env.connect.message ++ ")"] ∧
      "Successfully connected to server" ∉ (client.connect env c).cout.drop c.cout.length) := by
  have hm := connect_diagnostic_ne_success env.connect.message
  cases hc : env.connect.failed <;> cases hh : env.handshake.failed <;>
    simp [client.connect, hc, hh, Ne.symm hm]

/-- C10: in `client::send` the local error code stays default-constructed, so the
branch writing "Could not write message to stream" is never taken: for every
message and every outcome of the write, `send` writes nothing to `std::cout`;
a failure of the write leaves `send` as the exception the write threw, and a
write that returns lets `send` return. -/
theorem send_diagnostic_unreachable (env : ClientEnv) (message : List Nat) (c : client) :
    (client.send env message c).2.cout = c.cout ∧
    (∀ ex, asio.write env.write message = .error ex →
      (client.send env message c).1 = .error ex) ∧
    (∀ n, asio.write env.write message = .ok n → (client.send env message c).1 = .ok ()) ∧
    ((∃ ex, (client.send env message c).1 = .error ex) ↔
      (message ≠ [] ∧ (env.write message).failed = true)) := by
  unfold client.send asio.write
  cases message with
  | nil => simp [success_not_failed]
  | cons b rest =>
    cases hw : (env.write (b :: rest)).failed <;> simp [hw, success_not_failed]

/-- C5, evaluated where the claim fails: when loading the CA bundle fails inside
`client::initializeTls`, the constructor still completes and has gone on to
the transport connect and the handshake. -/
theorem client_connects_after_failed_initializeTls :
    (client.construct "127.0.0.1" 4433 clientEnvNoCaFile).map
        (fun c => (c.calls, c.state, c._sslContext.verifyFile, c.verifyMode, c.verifyCallback)) =
      .ok ([.set_options, .load_verify_file, .connect, .handshake], .established, none,
           verify_none, none) := by
  decide

/-! ## Server context configuration (C6, C9) -/

theorem configure_calls (s : server) (call : ContextCall) (error : ErrorCode)
    (effect : SslContext → SslContext) :
    (s.configure call error effect).calls = s.calls ++ [call] := rfl

theorem configure_sslContext (s : server) (call : ContextCall) (error : ErrorCode)
    (effect : SslContext → SslContext) :
    (s.configure call error effect)._sslContext =
      if error.failed then s._sslContext else effect s._sslContext := rfl

theorem exists_failed_iff (env : ServerTlsEnv) :
    (∃ call, (env call).failed = true) ↔
      ((env .set_options).failed = true ∨ (env .set_password_callback).failed = true ∨
       (env .use_certificate_file).failed = true ∨ (env .use_private_key_file).failed = true ∨
       (env .load_verify_file).failed = true ∨ (env .set_verify_mode).failed = true ∨
       (env .set_verify_callback).failed = true) := by
  constructor
  · rintro ⟨call, h⟩
    cases call <;> simp [h]
  · rintro (h | h | h | h | h | h | h) <;> exact ⟨_, h⟩

theorem forall_ok_iff (env : ServerTlsEnv) :
    (∀ call, (env call).failed = false) ↔
      ((env .set_options).failed = false ∧ (env .set_password_callback).failed = false ∧
       (env .use_certificate_file).failed = false ∧ (env .use_private_key_file).failed = false ∧
       (env .load_verify_file).failed = false ∧ (env .set_verify_mode).failed = false ∧
       (env .set_verify_callback).failed = false) := by
  constructor
  · intro h
    exact ⟨h _, h _, h _, h _, h _, h _, h _⟩
  · rintro ⟨h0, h1, h2, h3, h4, h5, h6⟩ call
    cases call <;> assumption

theorem initializeTls_outcome (env : ServerTlsEnv) (s : server) :
    (server.initializeTls env s).1 =
      if (env .set_options).failed = true ∨ (env .set_password_callback).failed = true ∨
         (env .use_certificate_file).failed = true ∨ (env .use_private_key_file).failed = true ∨
         (env .load_verify_file).failed = true ∨ (env .set_verify_mode).failed = true ∨
         (env .set_verify_callback).failed = true
      then .error (.runtime_error "TLS initialization error") else .ok () := by
  unfold server.initializeTls server.initializeTls.body
  cases h0 : (env .set_options).failed <;> simp [h0]
  cases h1 : (env .set_password_callback).failed <;> simp [h1]
  cases h2 : (env .use_certificate_file).failed <;> simp [h2]
  cases h3 : (env .use_private_key_file).failed <;> simp [h3]
  cases h4 : (env .load_verify_file).failed <;> simp [h4]
  cases h5 : (env .set_verify_mode).failed <;> simp [h5]
  cases h6 : (env .set_verify_callback).failed <;> simp [h6]

theorem initializeTls_calls (env : ServerTlsEnv) (s : server) :
    (server.initializeTls env s).2.calls =
      s.calls ++ executedUntilFailure env ContextCall.all := by
  unfold server.initializeTls server.initializeTls.body
  simp only [executedUntilFailure, ContextCall.all]
  cases h0 : (env .set_options).failed <;> simp [h0, configure_calls]
  cases h1 : (env .set_password_callback).failed <;> simp [h1, configure_calls]
  cases h2 : (env .use_certificate_file).failed <;> simp [h2, configure_calls]
  cases h3 : (env .use_private_key_file).failed <;> simp [h3, configure_calls]
  cases h4 : (env .load_verify_file).failed <;> simp [h4, configure_calls]
  cases h5 : (env .set_verify_mode).failed <;> simp [h5, configure_calls]
  cases h6 : (env .set_verify_callback).failed <;> simp [h6, configure_calls]

theorem initializeTls_context (env : ServerTlsEnv) (s : server)
    (h : ∀ call, (env call).failed = false) :
    (server.initializeTls env s).2._sslContext =
      { s._sslContext with
        default_workarounds := true
        passwordCallback := some .serverGetPassword
        certificateFile := some "../certs/server.crt"
        privateKeyFile := some "../certs/server.key"
        verifyFile := some "../certs/ca.pem"
        verifyMode := verify_peer ||| verify_fail_if_no_peer_cert
        verifyCallback := some .serverCertVerifyCB } := by
  unfold server.initializeTls server.initializeTls.body
  simp [configure_sslContext, h]

theorem not_mem_executed_of_earlier_failure (env : ServerTlsEnv) (call later : ContextCall)
    (hfail : (env call).failed = true) (hlt : call.index < later.index) :
    later ∉ executedUntilFailure env ContextCall.all := by
  simp only [executedUntilFailure, ContextCall.all]
  cases call <;> cases later <;> simp [ContextCall.index] at hlt <;>
    simp only [hfail, if_true] <;> (try split_ifs) <;> simp

/-- C6: `server::initializeTls` throws `std::runtime_error("TLS initialization error")`
exactly when one of its seven configuration calls reports an error, and
returns exactly when none does; it throws nothing else.  Once a call has
reported an error, no call later in source order is made.  When some call
reports an error the constructor does not yield a `server` object, so there is
nothing `start()` could be called on. -/
theorem initializeTls_throws_iff_step_fails (env : ServerTlsEnv) (s : server) :
    ((server.initializeTls env s).1 = .error (.runtime_error "TLS initialization error") ↔
      ∃ call, (env call).failed = true) ∧
    ((server.initializeTls env s).1 = .ok () ↔ ∀ call, (env call).failed = false) ∧
    (∀ ex, (server.initializeTls env s).1 = .error ex →
      ex = .runtime_error "TLS initialization error") ∧
    (∀ call later : ContextCall, (env call).failed = true → call.index < later.index →
      later ∉ (server.initializeTls env s).2.calls.drop s.calls.length) ∧
    (∀ (port : Nat) (acceptor : ErrorCode), (∃ call, (env call).failed = true) →
      ∀ srv : server, server.construct port acceptor env ≠ .ok srv) := by
  have hout := initializeTls_outcome env s
  refine ⟨?_, ?_, ?_, ?_, ?_⟩
  · rw [exists_failed_iff, hout]
    split_ifs with h <;> simp [h]
  · rw [forall_ok_iff, hout]
    split_ifs with h
    · simp only [reduceCtorEq, false_iff]
      intro hall
      rcases h with h | h | h | h | h | h | h <;> simp [hall] at h
    · simp only [not_or, Bool.not_eq_true] at h
      simpa using h
  · intro ex hex
    rw [hout] at hex
    by_cases h : (env .set_options).failed = true ∨ (env .set_password_callback).failed = true ∨
         (env .use_certificate_file).failed = true ∨ (env .use_private_key_file).failed = true ∨
         (env .load_verify_file).failed = true ∨ (env .set_verify_mode).failed = true ∨
         (env .set_verify_callback).failed = true
    · rw [if_pos h] at hex
      cases hex
      rfl
    · rw [if_neg h] at hex
      cases hex
  · intro call later hfail hlt
    rw [initializeTls_calls, List.drop_left]
    exact not_mem_executed_of_earlier_failure env call later hfail hlt
  · intro port acceptor hfail srv
    unfold server.construct
    split_ifs with ha
    · simp
    · intro hok
      have hthrow := initializeTls_outcome env
        { _port := port % 65536, _sslContext := SslContext.fresh .tlsv12_server, cout := [],
          calls := [], pendingAccepts := 0, started := [] }
      rw [if_pos ((exists_failed_iff env).mp hfail)] at hthrow
      simp only at hok
      split at hok
      · rename_i heq
        rw [heq] at hthrow
        cases hthrow
      · cases hok

/-- C9: when `server::initializeTls` returns, the context's verify mode is exactly
verify-peer combined with fail-if-no-peer-certificate and the registered
verify callback is `certVerifyCB`; a connection on that context whose peer
presents no certificate fails its handshake and is not established. -/
theorem initializeTls_success_requires_peer_cert (env : ServerTlsEnv) (s : server)
    (h : (server.initializeTls env s).1 = .ok ()) :
    (server.initializeTls env s).2._sslContext.verifyMode =
      verify_peer ||| verify_fail_if_no_peer_cert ∧
    (server.initializeTls env s).2._sslContext.verifyMode = 3 ∧
    (server.initializeTls env s).2._sslContext.verifyCallback = some .serverCertVerifyCB ∧
    ∀ socket : Socket,
      connection.handshake
        { socket := socket, sslContext := (server.initializeTls env s).2._sslContext } [] =
          .failed ∧
      connection.handshake
        { socket := socket, sslContext := (server.initializeTls env s).2._sslContext } [] ≠
          .established := by
  have hall : ∀ call, (env call).failed = false := by
    rw [forall_ok_iff]
    rw [initializeTls_outcome] at h
    by_cases hf : (env .set_options).failed = true ∨ (env .set_password_callback).failed = true ∨
         (env .use_certificate_file).failed = true ∨ (env .use_private_key_file).failed = true ∨
         (env .load_verify_file).failed = true ∨ (env .set_verify_mode).failed = true ∨
         (env .set_verify_callback).failed = true
    · rw [if_pos hf] at h
      cases h
    · simp only [not_or, Bool.not_eq_true] at hf
      exact hf
  rw [initializeTls_context env s hall]
  refine ⟨rfl, rfl, rfl, ?_⟩
  intro socket
  simp [connection.handshake, handshakeTrusted, verify_peer, verify_fail_if_no_peer_cert]

/-- C9, on a fresh server context with every configuration call succeeding. -/
theorem initializeTls_success_requires_peer_cert_witness :
    (server.initializeTls serverEnvOk serverFresh).1 = .ok () ∧
    (server.initializeTls serverEnvOk serverFresh).2._sslContext.verifyMode = 3 ∧
    (server.initializeTls serverEnvOk serverFresh).2._sslContext.verifyCallback =
      some .serverCertVerifyCB :=
  ⟨by decide,
   (initializeTls_success_requires_peer_cert serverEnvOk serverFresh (by decide)).2.1,
   (initializeTls_success_requires_peer_cert serverEnvOk serverFresh (by decide)).2.2.1⟩

/-! ## The accept loop (C7, C8) -/

/-- When the completion handler returns, one accept has been issued in place of the
completed one. -/
theorem acceptHandler_rearms_when_it_returns (error : ErrorCode) (socket : Socket)
    (startResult : Except Exn Unit) (s : server)
    (hret : (server.acceptHandler error socket startResult s).1 = .ok ()) :
    (server.acceptHandler error socket startResult s).2.pendingAccepts =
      s.pendingAccepts - 1 + 1 := by
  unfold server.acceptHandler at hret ⊢
  cases he : error.failed
  · cases hr : socket.remote_endpoint with
    | error ec => simp [he, hr] at hret
    | ok endpoint =>
      cases startResult with
      | error ex => simp [he, hr] at hret
      | ok u => simp [he, hr, server.accept]
  · simp [he, server.accept]

/-- When the accept completed with an error, the handler starts no connection and
issues the next accept. -/
theorem acceptHandler_on_error (error : ErrorCode) (socket : Socket)
    (startResult : Except Exn Unit) (s : server) (herr : error.failed = true) :
    (server.acceptHandler error socket startResult s).1 = .ok () ∧
    (server.acceptHandler error socket startResult s).2.started = s.started ∧
    (server.acceptHandler error socket startResult s).2.pendingAccepts =
      s.pendingAccepts - 1 + 1 := by
  simp [server.acceptHandler, herr, server.accept]

/-- When the accept completed without error and the remote endpoint could be queried,
the handler starts exactly one connection, built from the accepted socket and
the server's context. -/
theorem acceptHandler_on_success (error : ErrorCode) (socket : Socket)
    (startResult : Except Exn Unit) (s : server) (endpoint : String)
    (hok : error.failed = false) (hep : socket.remote_endpoint = .ok endpoint) :
    (server.acceptHandler error socket startResult s).2.started =
      s.started ++ [{ socket := socket, sslContext := s._sslContext }] := by
  unfold server.acceptHandler
  cases startResult <;> simp [hok, hep, server.accept]

/-- C7, evaluated where the claim fails: the accept completes without error on a socket
whose peer is already gone; `socket.remote_endpoint()` throws, the handler is
left by that exception, and of the one accept that was pending none is left. -/
theorem acceptHandler_throw_ends_accept_loop :
    serverListening.pendingAccepts = 1 ∧
    (server.acceptHandler ErrorCode.success socketPeerGone (.ok ()) serverListening).1 =
      .error (.system_error ⟨107, "Transport endpoint is not connected"⟩) ∧
    (server.acceptHandler ErrorCode.success socketPeerGone (.ok ()) serverListening).2.pendingAccepts
      = 0 := by
  decide

/-- C8, evaluated where the claim fails: the accept completes without error on a socket
whose peer is already gone, and no connection is constructed or started. -/
theorem acceptHandler_throw_spawns_no_connection :
    ErrorCode.success.failed = false ∧
    serverListening.started = [] ∧
    (server.acceptHandler ErrorCode.success socketPeerGone (.ok ()) serverListening).2.started
      = [] ∧
    (server.acceptHandler ErrorCode.success socketPeerGone (.ok ()) serverListening).1 ≠ .ok () := by
  decide

/-- Whatever `client::initializeTls` reports, the constructor goes on to `connect()`:
once the address was parsed, construction completes and the transport connect
has been made. -/
theorem client_construct_always_connects (remoteIp : String) (remotePort : Nat)
    (env : ClientEnv) (haddr : env.from_string.failed = false) :
    ∃ c, client.construct remoteIp remotePort env = .ok c ∧ ClientCall.connect ∈ c.calls := by
  refine ⟨_, by simp [client.construct, haddr]; rfl, ?_⟩
  cases hc : env.connect.failed <;> cases hh : env.handshake.failed <;>
    simp [client.connect, hc, hh]

end BoostTls
